import Mathlib

/-!
Verification of the creative-automation pipeline core (aspect-ratio
cropping, text-overlay rendering, brand/legal compliance checking),
shallowly embedded from the Python sources
`src/compositors/image_compositor.py` and `src/compliance/checker.py`.

Embedding conventions:
* Python integers become `ℤ` (or `ℕ` where the source value is a size or
  count); Python `//` and `int(·)` of a nonnegative value both become
  integer floor division, which for positive divisors agrees with `Int./`.
* The float constants of the source (`9/16`, `16/9`, `0.3`, `0.15`,
  opacity values, brightness thresholds) are embedded as exact rationals.
* Calls into external libraries (PIL font metrics and glyph rasterisation,
  OpenCV template matching, sklearn clustering, the filesystem) are
  parameters of the embedded functions.
* PIL image objects are mutable Python values; object identity is made
  explicit with a store (`List Img`) in which references are indices, so
  that claims about non-mutation of a caller's buffer are expressible.
-/

namespace Pipeline

/-! ## Aspect-ratio compositor: `ImageCompositor` -/

/-- Supported ratios (`ImageCompositor.ASPECT_RATIOS`): ratio name to the
numerator/denominator of the width/height value (`1.0`, `9/16`, `16/9`),
embedded exactly. -/
def ASPECT_RATIOS (s : String) : Option (ℤ × ℤ) :=
  if s = "1:1" then some (1, 1)
  else if s = "9:16" then some (9, 16)
  else if s = "16:9" then some (16, 9)
  else none

/-- A crop box `(left, top, right, bottom)` as passed to `Image.crop`. -/
structure CropBox where
  left : ℤ
  top : ℤ
  right : ℤ
  bottom : ℤ
deriving Repr, DecidableEq

/-- Width of the image `Image.crop` returns for this box. -/
def CropBox.cw (c : CropBox) : ℤ := c.right - c.left

/-- Height of the image `Image.crop` returns for this box. -/
def CropBox.ch (c : CropBox) : ℤ := c.bottom - c.top

/-- `ImageCompositor._smart_crop` for a source of size `w × h` and target
ratio `p / q`.  `current_ratio > target_ratio` is `w / h > p / q`, i.e.
`h * p < w * q` (sizes are positive); `int(img_height * target_ratio)` is
`h * p / q` and `int(img_width / target_ratio)` is `w * q / p` (floor,
values nonnegative); `int((img_height - new_height) * 0.3)` is
`(h - nh) * 3 / 10`.  The `left` coordinate is `(w - nw) / 2` in all four
branches of the source, so it is hoisted; `top` keeps the branches. -/
def smart_crop (w h p q : ℤ) (ratio_str : String) : CropBox :=
  let nw := if h * p < w * q then h * p / q else w
  let nh := if h * p < w * q then h else w * q / p
  let left := (w - nw) / 2
  let top :=
    if ratio_str = "1:1" then (h - nh) / 2
    else if ratio_str = "9:16" then (h - nh) * 3 / 10
    else if ratio_str = "16:9" then (h - nh) / 2
    else (h - nh) / 2
  { left := left, top := top, right := left + nw, bottom := top + nh }

/-- `ImageCompositor.create_variants` on a source of size `w × h`: walk the
requested ratio names in order, raising `ValueError` (modelled as
`Except.error`) at the first unsupported name, otherwise accumulating
`name ↦ crop` in insertion order. -/
def create_variants (w h : ℤ) : List String → Except String (List (String × CropBox))
  | [] => .ok []
  | r :: rest =>
    match ASPECT_RATIOS r with
    | none => .error ("Unsupported aspect ratio: " ++ r)
    | some (p, q) =>
      match create_variants w h rest with
      | .error e => .error e
      | .ok vs => .ok ((r, smart_crop w h p q r) :: vs)

/-- `ImageCompositor._calculate_font_size`: scale the configured base size
by `img_height / 1000` (exact arithmetic: `base * h / 1000`, floor), then
clamp to `[20, 120]`.  `img_width` is accepted and unused, as in the
source. -/
def calculate_font_size (base : ℕ) (imgW imgH : ℕ) : ℕ :=
  let _ := imgW
  max 20 (min (base * imgH / 1000) 120)

/-! ## Legal compliance: `ComplianceChecker.check_legal_compliance` -/

/-- Result record (`src/models.py` `ComplianceResult`). -/
structure ComplianceResult where
  passed : Bool
  details : String
  violations : List String
deriving Repr, DecidableEq

/-- `LegalConfig`: prohibited terms plus a term-to-severity mapping
(the Python dict is modelled as an association list). -/
structure LegalConfig where
  prohibited_words : List String
  severity_levels : List (String × String)
deriving Repr

/-- Word character of the regex `\b` boundary (`[a-zA-Z0-9_]`; the ASCII
fragment of Python's `\w`). -/
def isWordChar (c : Char) : Bool := c.isAlphanum || c == '_'

/-- Whether position `i` of `s` holds a word character (out of range counts
as non-word). -/
def wcAt (s : List Char) (i : ℕ) : Bool :=
  match s[i]? with
  | some c => isWordChar c
  | none => false

/-- Regex `\b`: a word boundary sits between positions `i - 1` and `i`
exactly when the two sides disagree on word-character-ness, with the
outside of the text counting as non-word. -/
def boundaryAt (s : List Char) (i : ℕ) : Bool :=
  if i = 0 then wcAt s 0 else wcAt s (i - 1) != wcAt s i

/-- The pattern `\b t \b` (with `t` a literal, as produced by `re.escape`)
matches `s` at position `i`. -/
def matchesAt (s t : List Char) (i : ℕ) : Bool :=
  boundaryAt s i && boundaryAt s (i + t.length) && t.isPrefixOf (s.drop i)

/-- `re.search(r'\b' + re.escape(term.lower()) + r'\b', text.lower())`
succeeds: some position of the lowercased text matches the lowercased term
with word boundaries on both sides.  Lowercasing is the ASCII fragment of
`str.lower`. -/
def hasWordMatch (text term : String) : Bool :=
  let s := text.data.map Char.toLower
  let t := term.data.map Char.toLower
  (List.range (s.length + 1)).any fun i => matchesAt s t i

/-- `dict.get(word, "warning")` on the severity mapping. -/
def severityOf (cfg : LegalConfig) (w : String) : String :=
  ((cfg.severity_levels.find? fun kv => kv.1 == w).map Prod.snd).getD "warning"

/-- The violation message the checker builds for a matched term. -/
def violationMsg (cfg : LegalConfig) (w : String) : String :=
  "Prohibited word '" ++ w ++ "' found (severity: " ++ severityOf cfg w ++ ")"

/-- `ComplianceChecker.check_legal_compliance`. -/
def check_legal_compliance (cfg : LegalConfig) (text : String) : ComplianceResult :=
  if cfg.prohibited_words.isEmpty then
    { passed := true, details := "No prohibited words configured", violations := [] }
  else
    let violations := cfg.prohibited_words.filterMap fun w =>
      if hasWordMatch text w then some (violationMsg cfg w) else none
    if violations.isEmpty then
      { passed := true
        details := "No prohibited terms found (checked " ++
          toString cfg.prohibited_words.length ++ " terms)"
        violations := violations }
    else
      { passed := false
        details := "Found " ++ toString violations.length ++ " prohibited term(s)"
        violations := violations }

/-! ## Image buffers and the object store

PIL images are mutable objects.  An `Img` is the value of one image
(mode, size, row-major pixel grid; a pixel is an RGBA quadruple, with the
grey value duplicated into the first component for mode `L`).  A store
`List Img` holds the live objects; a reference is an index into it;
`Image.new` / `Image.copy` / `convert` / `alpha_composite` append fresh
objects, while `ImageDraw` operations overwrite the referenced entry. -/

/-- PIL color modes used by the compositor. -/
inductive PMode
  | L
  | RGB
  | RGBA
deriving Repr, DecidableEq

/-- One PIL image value. -/
structure Img where
  mode : PMode
  width : ℕ
  height : ℕ
  data : List (ℕ × ℕ × ℕ × ℕ)
deriving Repr, DecidableEq

/-- Default entry for out-of-range store reads. -/
def dfltImg : Img := ⟨.RGB, 0, 0, []⟩

/-- `Image.new('RGBA', (w, h), (0, 0, 0, 0))`. -/
def newRGBA (w h : ℕ) : Img :=
  ⟨.RGBA, w, h, List.replicate (w * h) (0, 0, 0, 0)⟩

/-- `convert('RGBA')`: force full opacity into the alpha channel. -/
def Img.convertRGBA (i : Img) : Img :=
  { i with mode := .RGBA, data := i.data.map fun px => (px.1, px.2.1, px.2.2.1, 255) }

/-- `convert('L')`: PIL's ITU-R 601-2 transform `(299 R + 587 G + 114 B) / 1000`. -/
def Img.convertL (i : Img) : Img :=
  if i.mode = .L then i
  else
    { i with mode := .L
             data := i.data.map fun px =>
               let g := (px.1 * 299 + px.2.1 * 587 + px.2.2.1 * 114) / 1000
               (g, g, g, 255) }

/-- `ImageDraw.rectangle([(l, t), (r, b)], fill = c)`: paint every pixel
whose coordinates lie in the (inclusive) box, clipping at the image
bounds. -/
def Img.rectFill (i : Img) (l t r b : ℤ) (c : ℕ × ℕ × ℕ × ℕ) : Img :=
  { i with data := (List.range (i.width * i.height)).map fun k =>
      let x : ℤ := (k % i.width : ℕ)
      let y : ℤ := (k / i.width : ℕ)
      if l ≤ x ∧ x ≤ r ∧ t ≤ y ∧ y ≤ b then c
      else i.data.getD k (0, 0, 0, 0) }

/-- `Image.crop((l, t, r, b))`: a fresh `(r - l) × (b - t)` image, reading
the source inside its bounds and zero elsewhere. -/
def Img.cropBox (i : Img) (l t r b : ℤ) : Img :=
  let w := (r - l).toNat
  let h := (b - t).toNat
  { mode := i.mode, width := w, height := h
    data := (List.range (w * h)).map fun k =>
      let x : ℤ := l + ((k % w : ℕ) : ℤ)
      let y : ℤ := t + ((k / w : ℕ) : ℤ)
      if 0 ≤ x ∧ x < (i.width : ℤ) ∧ 0 ≤ y ∧ y < (i.height : ℤ) then
        i.data.getD (y.toNat * i.width + x.toNat) (0, 0, 0, 0)
      else (0, 0, 0, 0) }

/-- Source-over blend of one RGBA pixel pair (integer approximation of
PIL's float blend; `alpha_composite` is pointwise). -/
def overPix (p q : ℕ × ℕ × ℕ × ℕ) : ℕ × ℕ × ℕ × ℕ :=
  let qa := q.2.2.2
  let pa := p.2.2.2
  let oa := qa + pa * (255 - qa) / 255
  let ch := fun (cp cq : ℕ) =>
    if oa = 0 then 0 else (cq * qa + cp * pa * (255 - qa) / 255) / oa
  (ch p.1 q.1, ch p.2.1 q.2.1, ch p.2.2.1 q.2.2.1, oa)

/-- `Image.alpha_composite(p, q)`: a fresh image of `p`'s size with the
pointwise source-over blend of the two buffers. -/
def alphaComposite (p q : Img) : Img :=
  { mode := .RGBA, width := p.width, height := p.height
    data := List.zipWith overPix p.data q.data }

/-- `ImageStat.Stat(region).mean[0]` as an exact rational (zero on an
empty region, where PIL would divide by zero). -/
def meanBrightness (i : Img) : ℚ :=
  if i.data.isEmpty then 0
  else ((i.data.map fun px => (px.1 : ℚ)).sum) / (i.data.length : ℚ)

/-! ## Contrast adaptation: `ImageCompositor._ensure_contrast` -/

/-- The opacity-adjustment rule of `_ensure_contrast`, applied to the base
opacity and the measured mean brightness of the panel region. -/
def ensure_contrast_adjust (base_opacity avg_brightness : ℚ) : ℚ :=
  if avg_brightness > 180 then min (base_opacity + 0.3) 0.9
  else if avg_brightness > 120 then min (base_opacity + 0.15) 0.8
  else if avg_brightness < 60 then max (base_opacity - 0.2) 0.3
  else base_opacity

/-- `ImageCompositor._ensure_contrast`: crop the text region, convert it to
greyscale, take the mean brightness, and adjust the base opacity. -/
def ensure_contrast (base_opacity : ℚ) (i : Img) (l t r b : ℤ) : ℚ :=
  ensure_contrast_adjust base_opacity (meanBrightness ((i.cropBox l t r b).convertL))

/-! ## Text overlay rendering -/

/-- `ImageCompositor.__init__` configuration. -/
structure CompositorConfig where
  font_family : String
  base_font_size : ℕ
  text_color : String
  text_position : String
  padding : ℤ
  background_opacity : ℚ

/-- External font machinery (PIL `ImageFont` / `ImageDraw`), parameterised
by the scaled font size: `lineWidth` is the width of `draw.textbbox` on one
line, `blockBBox` is `draw.multiline_textbbox` on the wrapped block, and
`drawText` is the in-place effect of `draw.multiline_text` at an anchor. -/
structure FontOracle where
  lineWidth : ℕ → String → ℤ
  blockBBox : ℕ → String → ℤ × ℤ × ℤ × ℤ
  drawText : ℕ → Img → ℤ × ℤ → String → Img

/-- `' '.join(words)`. -/
def joinSp (ws : List String) : String := String.intercalate " " ws

/-- The word loop of `ImageCompositor._wrap_text`: greedily extend the
current line while the measured test line fits, else flush it (a single
overlong word still starts its own line). -/
def wrapLoop (measure : String → ℤ) (maxW : ℤ) :
    List String → List String → List String → List String
  | [], lines, current =>
    if current.isEmpty then lines else lines ++ [joinSp current]
  | w :: rest, lines, current =>
    let test := joinSp (current ++ [w])
    if measure test ≤ maxW then wrapLoop measure maxW rest lines (current ++ [w])
    else if current.isEmpty then wrapLoop measure maxW rest lines [w]
    else wrapLoop measure maxW rest (lines ++ [joinSp current]) [w]

/-- `ImageCompositor._wrap_text`: `text.split()` (whitespace runs, no
empties), pack greedily, join with newlines. -/
def wrap_text (measure : String → ℤ) (text : String) (maxW : ℤ) : String :=
  let words := (text.split fun c => c.isWhitespace).filter fun s => ¬ s.isEmpty
  String.intercalate "\n" (wrapLoop measure maxW words [] [])

/-- The pure text-geometry computation both overlay methods share: scaled
font size, wrapped text, measured block extent and anchor position. -/
structure OverlayGeom where
  fsz : ℕ
  wrapped : String
  textX : ℤ
  textY : ℤ
  textW : ℤ
  textH : ℤ

/-- The measurement prefix of `add_text_overlay` /
`add_text_overlay_with_contrast`: scale the font by the copy's dimensions,
wrap the text to `width − 2·padding`, measure the block with
`multiline_textbbox`, center horizontally and anchor vertically per the
requested position. -/
def overlay_geom (o : FontOracle) (cfg : CompositorConfig) (img : Img)
    (text : String) (position : Option String) : OverlayGeom :=
  let pos := position.getD cfg.text_position
  let imgW : ℤ := img.width
  let imgH : ℤ := img.height
  let fsz := calculate_font_size cfg.base_font_size img.width img.height
  let wrapped := wrap_text (o.lineWidth fsz) text (imgW - cfg.padding * 2)
  let bbox := o.blockBBox fsz wrapped
  let textW := bbox.2.2.1 - bbox.1
  let textH := bbox.2.2.2 - bbox.2.1
  let textX := (imgW - textW) / 2
  let textY :=
    if pos = "bottom" then imgH - textH - cfg.padding * 2
    else if pos = "top" then cfg.padding * 2
    else (imgH - textH) / 2
  ⟨fsz, wrapped, textX, textY, textW, textH⟩

/-- `ImageCompositor.add_text_overlay` over the object store: copy the
input (fresh object), compute the text geometry, build the fresh overlay
layer, paint its background rectangle in place, convert the copy to RGBA
if needed (a fresh object), alpha-composite (a fresh object), and draw
the text in place on the composite.  Returns the updated store and the
reference handed back to the caller. -/
def add_text_overlay (o : FontOracle) (cfg : CompositorConfig)
    (store : List Img) (ref : ℕ) (text : String) (position : Option String) :
    List Img × ℕ :=
  let image := store.getD ref dfltImg
  let g := overlay_geom o cfg image text position
  let store := store ++ [image]
  let overlay0 := newRGBA image.width image.height
  let ovRef := store.length
  let store := store ++ [overlay0]
  let bgAlpha := (cfg.background_opacity * 255).floor.toNat
  let overlay1 := overlay0.rectFill (g.textX - cfg.padding) (g.textY - cfg.padding)
      (g.textX + g.textW + cfg.padding) (g.textY + g.textH + cfg.padding) (0, 0, 0, bgAlpha)
  let store := store.set ovRef overlay1
  let img_copy2 := if image.mode = .RGBA then image else image.convertRGBA
  let store := if image.mode = .RGBA then store else store ++ [img_copy2]
  let comp := alphaComposite img_copy2 overlay1
  let compRef := store.length
  let store := store ++ [comp]
  let store := store.set compRef (o.drawText g.fsz comp (g.textX, g.textY) g.wrapped)
  (store, compRef)

/-- `ImageCompositor.add_text_overlay_with_contrast`: identical pipeline,
except that the panel region's brightness is sampled first (region clamped
to the image) and the rectangle is painted with the adjusted opacity. -/
def add_text_overlay_with_contrast (o : FontOracle) (cfg : CompositorConfig)
    (store : List Img) (ref : ℕ) (text : String) (position : Option String) :
    List Img × ℕ :=
  let image := store.getD ref dfltImg
  let g := overlay_geom o cfg image text position
  let store := store ++ [image]
  let adjusted := ensure_contrast cfg.background_opacity image
      (max 0 (g.textX - cfg.padding)) (max 0 (g.textY - cfg.padding))
      (min (image.width : ℤ) (g.textX + g.textW + cfg.padding))
      (min (image.height : ℤ) (g.textY + g.textH + cfg.padding))
  let overlay0 := newRGBA image.width image.height
  let ovRef := store.length
  let store := store ++ [overlay0]
  let bgAlpha := (adjusted * 255).floor.toNat
  let overlay1 := overlay0.rectFill (g.textX - cfg.padding) (g.textY - cfg.padding)
      (g.textX + g.textW + cfg.padding) (g.textY + g.textH + cfg.padding) (0, 0, 0, bgAlpha)
  let store := store.set ovRef overlay1
  let img_copy2 := if image.mode = .RGBA then image else image.convertRGBA
  let store := if image.mode = .RGBA then store else store ++ [img_copy2]
  let comp := alphaComposite img_copy2 overlay1
  let compRef := store.length
  let store := store ++ [comp]
  let store := store.set compRef (o.drawText g.fsz comp (g.textX, g.textY) g.wrapped)
  (store, compRef)

/-! ## Brand compliance: `ComplianceChecker.check_brand_compliance` -/

/-- `BrandConfig` (freshly constructed, so the `_logo_template` cache cell
is empty). -/
structure BrandConfig where
  logo_template_path : Option String
  brand_colors : List String
  min_logo_confidence : ℚ

/-- Python truthiness of `self.brand_config.logo_template_path`
(`None` and `""` are both falsy). -/
def BrandConfig.pathSet (cfg : BrandConfig) : Bool :=
  match cfg.logo_template_path with
  | some p => ¬ p.isEmpty
  | none => false

/-- `BrandConfig.load_logo_template` on a fresh config: consult the
filesystem (`fs path = some img` when the file exists and decodes) only
when a path is truthy; a missing file leaves the cache `None`. -/
def load_logo_template (fs : String → Option Img) (cfg : BrandConfig) : Option Img :=
  match cfg.logo_template_path with
  | none => none
  | some p => if p.isEmpty then none else fs p

/-- `ComplianceChecker._detect_logo`, with OpenCV's maximal normalised
cross-correlation supplied as the `matchScore` parameter. -/
def detect_logo (fs : String → Option Img) (matchScore : Img → Img → ℚ)
    (cfg : BrandConfig) (image : Img) : Bool :=
  if ¬ cfg.pathSet then false
  else
    match load_logo_template fs cfg with
    | none => false
    | some tpl => decide (cfg.min_logo_confidence ≤ matchScore image tpl)

/-- One hex digit of `int(s, 16)` (zero for a malformed digit). -/
def hexDigitVal (c : Char) : ℕ :=
  if '0' ≤ c ∧ c ≤ '9' then c.toNat - 48
  else if 'a' ≤ c ∧ c ≤ 'f' then c.toNat - 87
  else if 'A' ≤ c ∧ c ≤ 'F' then c.toNat - 55
  else 0

/-- `int(color.lstrip('#')[i:i+2], 16)`. -/
def hexPair (cs : List Char) (i : ℕ) : ℤ :=
  (16 * hexDigitVal (cs.getD i '0') + hexDigitVal (cs.getD (i + 1) '0') : ℕ)

/-- `ComplianceChecker._color_match`: Euclidean RGB distance within the
tolerance; `sqrt(d²) ≤ tol` is compared as `d² ≤ tol²` (exact for
integer distances and nonnegative tolerance). -/
def color_match (c1 c2 : String) (tol : ℤ) : Bool :=
  let a := c1.data.dropWhile fun c => c = '#'
  let b := c2.data.dropWhile fun c => c = '#'
  let d2 := (hexPair a 0 - hexPair b 0) ^ 2 + (hexPair a 2 - hexPair b 2) ^ 2 +
    (hexPair a 4 - hexPair b 4) ^ 2
  decide (d2 ≤ tol ^ 2)

/-- `ComplianceChecker.check_brand_compliance`, with the sklearn dominant
colour extraction supplied as the `dominantColors` parameter.  The logo
sub-check is gated on the configured *path* being truthy — not on the
template having loaded — and the colour sub-check on configured brand
colors; `passed` is the emptiness of the accumulated violations. -/
def check_brand_compliance (fs : String → Option Img) (matchScore : Img → Img → ℚ)
    (dominantColors : Img → List String) (cfg : BrandConfig) (image : Img) :
    ComplianceResult :=
  let logo_detected := detect_logo fs matchScore cfg image
  let lv : List String × List String :=
    if cfg.pathSet then
      if logo_detected then ([], ["Logo detected in image"])
      else (["Brand logo not detected in image"], ["Logo detection failed"])
    else ([], [])
  let cv : List String × List String :=
    if ¬ cfg.brand_colors.isEmpty then
      let colors_present := dominantColors image
      let found := colors_present.any fun c =>
        cfg.brand_colors.any fun bc => color_match c bc 30
      if found then
        ([], ["Brand colors detected: " ++ String.intercalate ", " cfg.brand_colors])
      else
        (["Brand colors not found. Expected: " ++ String.intercalate ", " cfg.brand_colors],
         ["Brand color validation failed"])
    else ([], [])
  let violations := lv.1 ++ cv.1
  let details_parts := lv.2 ++ cv.2
  { passed := violations.isEmpty
    details :=
      if details_parts.isEmpty then "No brand compliance checks configured"
      else String.intercalate "; " details_parts
    violations := violations }

/-- Store `s'` agrees with store `s` on every reference below `n`: the
objects a caller already held are untouched. -/
def PreservesBelow (s s' : List Img) (n : ℕ) : Prop :=
  ∀ i, i < n → s'.getD i dfltImg = s.getD i dfltImg

/-- A concrete font oracle for evaluating the overlay pipeline: zero-width
metrics and an in-place text draw that leaves pixels alone. -/
def witnessOracle : FontOracle :=
  ⟨fun _ _ => 0, fun _ _ => (0, 0, 0, 0), fun _ i _ _ => i⟩

/-- A concrete compositor configuration (the constructor defaults). -/
def witnessCfg : CompositorConfig :=
  ⟨"Arial", 48, "#FFFFFF", "bottom", 20, 6 / 10⟩

/-- A concrete one-object store. -/
def witnessStore : List Img := [newRGBA 2 3]

/-! ## Helper lemmas -/

theorem getD_append_lt {α} (l l2 : List α) (i : ℕ) (d : α) (h : i < l.length) :
    (l ++ l2).getD i d = l.getD i d := by
  simp [List.getD, List.getElem?_append_left h]

theorem getD_set_ne {α} (l : List α) (i j : ℕ) (a : α) (d : α) (h : i ≠ j) :
    (l.set j a).getD i d = l.getD i d := by
  simp [List.getD, List.getElem?_set_ne (Ne.symm h)]

theorem getD_set_self {α} (l : List α) (i : ℕ) (a d : α) (h : i < l.length) :
    (l.set i a).getD i d = a := by
  simp [List.getD, List.getElem?_set_self, h]

theorem push_set_getD_self (s : List Img) (a b : Img) :
    ((s ++ [a]).set s.length b).getD s.length dfltImg = b :=
  getD_set_self _ _ _ _ (by simp)

theorem push_set_getD_lt (s : List Img) (a b : Img) (i : ℕ) (hi : i < s.length) :
    ((s ++ [a]).set s.length b).getD i dfltImg = s.getD i dfltImg := by
  rw [getD_set_ne _ _ _ _ _ (by omega), getD_append_lt _ _ _ _ hi]

theorem preservesBelow_append (s : List Img) (a : Img) (n : ℕ) (hn : n ≤ s.length) :
    PreservesBelow s (s ++ [a]) n := by
  intro i hi
  exact getD_append_lt s [a] i dfltImg (lt_of_lt_of_le hi hn)

theorem preservesBelow_set (s : List Img) (j : ℕ) (a : Img) (n : ℕ) (hj : n ≤ j) :
    PreservesBelow s (s.set j a) n := by
  intro i hi
  exact getD_set_ne s i j a dfltImg (by omega)

theorem preservesBelow_trans {s s' s'' : List Img} {n : ℕ}
    (h1 : PreservesBelow s s' n) (h2 : PreservesBelow s' s'' n) :
    PreservesBelow s s'' n := by
  intro i hi
  rw [h2 i hi, h1 i hi]

theorem filterMap_if_eq_map_filter {α β} (m : α → β) (p : α → Bool) (l : List α) :
    (l.filterMap fun a => if p a then some (m a) else none) = (l.filter p).map m := by
  induction l with
  | nil => rfl
  | cons a t ih => by_cases h : p a <;> simp [List.filter_cons, h, ih]

theorem smart_crop_cw (w h p q : ℤ) (s : String) :
    (smart_crop w h p q s).cw = if h * p < w * q then h * p / q else w := by
  simp [smart_crop, CropBox.cw]

theorem smart_crop_ch (w h p q : ℤ) (s : String) :
    (smart_crop w h p q s).ch = if h * p < w * q then h else w * q / p := by
  simp [smart_crop, CropBox.ch]

/-! ## Claim theorems -/

/-- C2: every request list holding an unsupported ratio name makes
`create_variants` fail with an error naming that (first offending) ratio,
and the caller receives no mapping at all. -/
theorem create_variants_unsupported_aborts (w h : ℤ) (rs : List String)
    (hbad : ∃ r ∈ rs, ASPECT_RATIOS r = none) :
    ∃ r ∈ rs, ASPECT_RATIOS r = none ∧
      create_variants w h rs = .error ("Unsupported aspect ratio: " ++ r) ∧
      ∀ m, create_variants w h rs ≠ .ok m := by
  induction rs with
  | nil =>
    obtain ⟨r, hr, _⟩ := hbad
    exact absurd hr (List.not_mem_nil r)
  | cons a rest ih =>
    cases hA : ASPECT_RATIOS a with
    | none =>
      refine ⟨a, List.mem_cons_self a rest, hA, ?_, ?_⟩
      · simp [create_variants, hA]
      · intro m
        simp [create_variants, hA]
    | some pq =>
      obtain ⟨p, q⟩ := pq
      have hrest : ∃ r ∈ rest, ASPECT_RATIOS r = none := by
        obtain ⟨r, hr, hnone⟩ := hbad
        rcases List.mem_cons.mp hr with rfl | hr'
        · rw [hA] at hnone
          exact absurd hnone (by simp)
        · exact ⟨r, hr', hnone⟩
      obtain ⟨r, hr, hnone, herr, _⟩ := ih hrest
      refine ⟨r, List.mem_cons_of_mem _ hr, hnone, ?_, ?_⟩
      · simp [create_variants, hA, herr]
      · intro m
        simp [create_variants, hA, herr]

/-- Witness for C2 at a concrete input. -/
theorem create_variants_unsupported_aborts_witness :
    (∃ r ∈ ["1:1", "4:3"], ASPECT_RATIOS r = none) ∧
    ∃ r ∈ ["1:1", "4:3"], ASPECT_RATIOS r = none ∧
      create_variants 100 100 ["1:1", "4:3"] = .error ("Unsupported aspect ratio: " ++ r) ∧
      ∀ m, create_variants 100 100 ["1:1", "4:3"] ≠ .ok m :=
  ⟨⟨"4:3", by decide, by decide⟩,
   create_variants_unsupported_aborts 100 100 ["1:1", "4:3"] ⟨"4:3", by decide, by decide⟩⟩

/-- C3 counterexample: on a 2 × 2 source the "9:16" crop is 1 × 2, whose
ratio 1/2 misses 9/16 by far more than 1%, refuting the tolerance part of
the claim for arbitrary positive sources. -/
theorem crop_tolerance_counterexample :
    ASPECT_RATIOS "9:16" = some (9, 16) ∧
    create_variants 2 2 ["9:16"] = .ok [("9:16", smart_crop 2 2 9 16 "9:16")] ∧
    (smart_crop 2 2 9 16 "9:16").cw = 1 ∧
    (smart_crop 2 2 9 16 "9:16").ch = 2 ∧
    ¬ (99 * (9 * (smart_crop 2 2 9 16 "9:16").ch) ≤
        100 * (16 * (smart_crop 2 2 9 16 "9:16").cw)) :=
  ⟨rfl, rfl, rfl, rfl, by decide⟩

/-- C3 (amended): the crop keeps full height and takes `⌊h·R⌋` width when
the source is relatively wider, else full width and `⌊w/R⌋` height; and
once both source dimensions are at least 180 the resulting ratio is within
1% of the nominal value `p/q` (i.e. `0.99·(p/q) ≤ cw/ch ≤ 1.01·(p/q)`). -/
theorem crop_dims_and_tolerance (s : String) (p q w h : ℤ)
    (hs : ASPECT_RATIOS s = some (p, q)) (hw : 180 ≤ w) (hh : 180 ≤ h) :
    (smart_crop w h p q s).cw = (if h * p < w * q then h * p / q else w) ∧
    (smart_crop w h p q s).ch = (if h * p < w * q then h else w * q / p) ∧
    99 * (p * (smart_crop w h p q s).ch) ≤ 100 * (q * (smart_crop w h p q s).cw) ∧
    100 * (q * (smart_crop w h p q s).cw) ≤ 101 * (p * (smart_crop w h p q s).ch) := by
  refine ⟨smart_crop_cw w h p q s, smart_crop_ch w h p q s, ?_, ?_⟩ <;>
    rw [smart_crop_cw, smart_crop_ch] <;>
    unfold ASPECT_RATIOS at hs <;>
    split_ifs at hs <;>
    simp_all <;>
    obtain ⟨rfl, rfl⟩ := hs <;>
    split_ifs with hlt <;>
    omega

/-- Witness for C3 (amended) at a concrete input. -/
theorem crop_dims_and_tolerance_witness :
    ASPECT_RATIOS "9:16" = some (9, 16) ∧ (180 : ℤ) ≤ 400 ∧ (180 : ℤ) ≤ 400 ∧
    ((smart_crop 400 400 9 16 "9:16").cw =
        (if (400 : ℤ) * 9 < 400 * 16 then 400 * 9 / 16 else 400) ∧
      (smart_crop 400 400 9 16 "9:16").ch =
        (if (400 : ℤ) * 9 < 400 * 16 then 400 else 400 * 16 / 9) ∧
      99 * (9 * (smart_crop 400 400 9 16 "9:16").ch) ≤
        100 * (16 * (smart_crop 400 400 9 16 "9:16").cw) ∧
      100 * (16 * (smart_crop 400 400 9 16 "9:16").cw) ≤
        101 * (9 * (smart_crop 400 400 9 16 "9:16").ch)) :=
  ⟨rfl, by norm_num, by norm_num,
   crop_dims_and_tolerance "9:16" 9 16 400 400 rfl (by norm_num) (by norm_num)⟩

/-- C4: for positive sources and each supported ratio the crop box stays
inside the source: `0 ≤ left`, `0 ≤ top`, `right = left + cw ≤ w`,
`bottom = top + ch ≤ h`. -/
theorem smart_crop_within_bounds (s : String) (p q w h : ℤ)
    (hs : ASPECT_RATIOS s = some (p, q)) (hw : 0 < w) (hh : 0 < h) :
    0 ≤ (smart_crop w h p q s).left ∧ 0 ≤ (smart_crop w h p q s).top ∧
    (smart_crop w h p q s).right = (smart_crop w h p q s).left + (smart_crop w h p q s).cw ∧
    (smart_crop w h p q s).right ≤ w ∧
    (smart_crop w h p q s).bottom = (smart_crop w h p q s).top + (smart_crop w h p q s).ch ∧
    (smart_crop w h p q s).bottom ≤ h := by
  unfold ASPECT_RATIOS at hs
  split_ifs at hs with h1 h2 h3 <;> simp_all <;> obtain ⟨rfl, rfl⟩ := hs <;>
    simp only [smart_crop, CropBox.cw, CropBox.ch] <;>
    split_ifs <;> omega

/-- Witness for C4 at a concrete input. -/
theorem smart_crop_within_bounds_witness :
    ASPECT_RATIOS "16:9" = some (16, 9) ∧ (0 : ℤ) < 300 ∧ (0 : ℤ) < 500 ∧
    (0 ≤ (smart_crop 300 500 16 9 "16:9").left ∧
      0 ≤ (smart_crop 300 500 16 9 "16:9").top ∧
      (smart_crop 300 500 16 9 "16:9").right =
        (smart_crop 300 500 16 9 "16:9").left + (smart_crop 300 500 16 9 "16:9").cw ∧
      (smart_crop 300 500 16 9 "16:9").right ≤ 300 ∧
      (smart_crop 300 500 16 9 "16:9").bottom =
        (smart_crop 300 500 16 9 "16:9").top + (smart_crop 300 500 16 9 "16:9").ch ∧
      (smart_crop 300 500 16 9 "16:9").bottom ≤ 500) :=
  ⟨rfl, by norm_num, by norm_num,
   smart_crop_within_bounds "16:9" 16 9 300 500 rfl (by norm_num) (by norm_num)⟩

/-- C5: the "9:16" crop is horizontally centered with
`top = ⌊0.3 · (h − crop_height)⌋`, and every other ratio name (including
"1:1", "16:9" and the default branch) is centered on both axes. -/
theorem smart_crop_anchor (w h p q : ℤ) (s : String) :
    (s = "9:16" →
      (smart_crop w h p q s).left = (w - (smart_crop w h p q s).cw) / 2 ∧
      (smart_crop w h p q s).top = ((h - (smart_crop w h p q s).ch) * 3) / 10) ∧
    (s ≠ "9:16" →
      (smart_crop w h p q s).left = (w - (smart_crop w h p q s).cw) / 2 ∧
      (smart_crop w h p q s).top = (h - (smart_crop w h p q s).ch) / 2) := by
  constructor
  · rintro rfl
    constructor <;> simp [smart_crop, CropBox.cw, CropBox.ch]
  · intro hne
    constructor
    · simp [smart_crop, CropBox.cw]
    · simp only [smart_crop, CropBox.ch]
      split_ifs <;> simp_all

/-- Witness for C5 at concrete inputs, one per implication. -/
theorem smart_crop_anchor_witness :
    ((smart_crop 100 50 9 16 "9:16").left =
        (100 - (smart_crop 100 50 9 16 "9:16").cw) / 2 ∧
      (smart_crop 100 50 9 16 "9:16").top =
        ((50 - (smart_crop 100 50 9 16 "9:16").ch) * 3) / 10) ∧
    ((smart_crop 100 50 16 9 "16:9").left =
        (100 - (smart_crop 100 50 16 9 "16:9").cw) / 2 ∧
      (smart_crop 100 50 16 9 "16:9").top =
        (50 - (smart_crop 100 50 16 9 "16:9").ch) / 2) :=
  ⟨(smart_crop_anchor 100 50 9 16 "9:16").1 rfl,
   (smart_crop_anchor 100 50 16 9 "16:9").2 (by decide)⟩

/-- C6: the font size is the clamp of `base · h / 1000` to `[20, 120]`,
lies in that interval, is monotone in the image height, and ignores the
image width. -/
theorem font_size_clamped_monotone (base w w2 h1 h2 : ℕ) (hh : h1 ≤ h2) :
    20 ≤ calculate_font_size base w h1 ∧ calculate_font_size base w h1 ≤ 120 ∧
    20 ≤ calculate_font_size base w h2 ∧ calculate_font_size base w h2 ≤ 120 ∧
    calculate_font_size base w h1 = max 20 (min (base * h1 / 1000) 120) ∧
    calculate_font_size base w h1 ≤ calculate_font_size base w h2 ∧
    calculate_font_size base w h1 = calculate_font_size base w2 h1 := by
  refine ⟨le_max_left _ _, ?_, le_max_left _ _, ?_, rfl, ?_, rfl⟩
  · exact max_le (by norm_num) (min_le_right _ _)
  · exact max_le (by norm_num) (min_le_right _ _)
  · exact max_le_max le_rfl
      (min_le_min (Nat.div_le_div_right (Nat.mul_le_mul_left base hh)) le_rfl)

/-- Witness for C6 at a concrete input. -/
theorem font_size_clamped_monotone_witness :
    500 ≤ 2000 ∧
    (20 ≤ calculate_font_size 48 800 500 ∧ calculate_font_size 48 800 500 ≤ 120 ∧
      20 ≤ calculate_font_size 48 800 2000 ∧ calculate_font_size 48 800 2000 ≤ 120 ∧
      calculate_font_size 48 800 500 = max 20 (min (48 * 500 / 1000) 120) ∧
      calculate_font_size 48 800 500 ≤ calculate_font_size 48 800 2000 ∧
      calculate_font_size 48 800 500 = calculate_font_size 48 640 500) :=
  ⟨by norm_num, font_size_clamped_monotone 48 800 640 500 2000 (by norm_num)⟩

/-- C8: the legal check passes exactly when no configured term has a
case-insensitive word-boundary whole-word match, and the concrete
word-boundary / case-insensitivity examples behave as specified. -/
theorem legal_passed_iff_no_match (cfg : LegalConfig) (text : String) :
    ((check_legal_compliance cfg text).passed = true ↔
      ∀ word ∈ cfg.prohibited_words, hasWordMatch text word = false) ∧
    hasWordMatch "This is free" "free" = true ∧
    hasWordMatch "Freedom is important" "free" = false ∧
    hasWordMatch "This is FREE" "free" = true ∧
    hasWordMatch "This is Free" "free" = true ∧
    hasWordMatch "this is free" "FREE" = true ∧
    hasWordMatch "this is free" "Free" = true := by
  refine ⟨?_, by decide, by decide, by decide, by decide, by decide, by decide⟩
  have key : (cfg.prohibited_words.filterMap fun w =>
      if hasWordMatch text w then some (violationMsg cfg w) else none).isEmpty = true ↔
      ∀ word ∈ cfg.prohibited_words, hasWordMatch text word = false := by
    rw [List.isEmpty_iff, List.filterMap_eq_nil_iff]
    constructor
    · intro hnone word hmem
      have hw := hnone word hmem
      by_cases hm : hasWordMatch text word
      · simp [hm] at hw
      · simpa using hm
    · intro hall a hmem
      simp [hall a hmem]
  unfold check_legal_compliance
  by_cases hemp : cfg.prohibited_words.isEmpty
  · have h0 : cfg.prohibited_words = [] := List.isEmpty_iff.mp hemp
    simp [hemp, h0]
  · simp only [hemp, Bool.false_eq_true, if_false]
    split_ifs with hviol
    · simpa using key.mp hviol
    · exact iff_of_false (by simp) fun hall => hviol (key.mpr hall)

/-- C10: violations are exactly the matched terms, in configuration order,
one message per configured term, so the list never outgrows the term
list. -/
theorem legal_violations_order_bound (cfg : LegalConfig) (text : String) :
    (check_legal_compliance cfg text).violations =
      ((cfg.prohibited_words.filter fun w => hasWordMatch text w).map (violationMsg cfg)) ∧
    (check_legal_compliance cfg text).violations.length ≤ cfg.prohibited_words.length := by
  have hfm := filterMap_if_eq_map_filter (violationMsg cfg)
    (fun w => hasWordMatch text w) cfg.prohibited_words
  unfold check_legal_compliance
  by_cases hemp : cfg.prohibited_words.isEmpty
  · have h0 : cfg.prohibited_words = [] := List.isEmpty_iff.mp hemp
    simp [hemp, h0]
  · simp only [hemp, Bool.false_eq_true, if_false]
    split_ifs with hviol <;>
      refine ⟨hfm, ?_⟩ <;> rw [hfm] <;>
      simpa using List.length_filter_le _ cfg.prohibited_words

/-- C9: the contrast-adaptation rule returns exactly the specified
piecewise adjustment of the base opacity. -/
theorem contrast_adjust_cases (b v : ℚ) :
    (180 < v → ensure_contrast_adjust b v = min (b + 0.3) 0.9) ∧
    (120 < v ∧ v ≤ 180 → ensure_contrast_adjust b v = min (b + 0.15) 0.8) ∧
    (v < 60 → ensure_contrast_adjust b v = max (b - 0.2) 0.3) ∧
    (60 ≤ v ∧ v ≤ 120 → ensure_contrast_adjust b v = b) := by
  refine ⟨fun h1 => ?_, fun ⟨h1, h2⟩ => ?_, fun h1 => ?_, fun ⟨h1, h2⟩ => ?_⟩ <;>
    unfold ensure_contrast_adjust <;> split_ifs with ha hb hc <;> first
      | rfl
      | (exfalso; linarith)

/-- Witness for C9 at concrete inputs, one per brightness band. -/
theorem contrast_adjust_cases_witness :
    ((180 : ℚ) < 200 ∧ ensure_contrast_adjust 0.5 200 = min ((0.5 : ℚ) + 0.3) 0.9) ∧
    (((120 : ℚ) < 150 ∧ (150 : ℚ) ≤ 180) ∧
      ensure_contrast_adjust 0.5 150 = min ((0.5 : ℚ) + 0.15) 0.8) ∧
    ((30 : ℚ) < 60 ∧ ensure_contrast_adjust 0.5 30 = max ((0.5 : ℚ) - 0.2) 0.3) ∧
    (((60 : ℚ) ≤ 90 ∧ (90 : ℚ) ≤ 120) ∧ ensure_contrast_adjust 0.5 90 = 0.5) :=
  ⟨⟨by norm_num, (contrast_adjust_cases 0.5 200).1 (by norm_num)⟩,
   ⟨⟨by norm_num, by norm_num⟩, (contrast_adjust_cases 0.5 150).2.1 ⟨by norm_num, by norm_num⟩⟩,
   ⟨by norm_num, (contrast_adjust_cases 0.5 30).2.2.1 (by norm_num)⟩,
   ⟨⟨by norm_num, by norm_num⟩, (contrast_adjust_cases 0.5 90).2.2.2 ⟨by norm_num, by norm_num⟩⟩⟩

/-- C1 counterexample: with a configured logo path whose file is absent,
the claim predicts a skipped logo sub-check (no violation, `passed`
unaffected), but the checker emits the logo violation and fails, whereas
the genuinely unconfigured checker passes. -/
theorem brand_missing_logo_counterexample :
    (check_brand_compliance (fun _ => none) (fun _ _ => 0) (fun _ => [])
        ⟨some "logo.png", [], 7 / 10⟩ (newRGBA 1 1)).passed = false ∧
    (check_brand_compliance (fun _ => none) (fun _ _ => 0) (fun _ => [])
        ⟨some "logo.png", [], 7 / 10⟩ (newRGBA 1 1)).violations =
      ["Brand logo not detected in image"] ∧
    (check_brand_compliance (fun _ => none) (fun _ _ => 0) (fun _ => [])
        ⟨none, [], 7 / 10⟩ (newRGBA 1 1)).passed = true :=
  ⟨rfl, rfl, rfl⟩

/-- C1 (amended): when a (truthy) logo path is configured but the file is
absent or unreadable, the template fails to load, logo detection returns
`false`, and `check_brand_compliance` records the logo violation and sets
`passed = false`; the logo sub-check is *not* skipped. -/
theorem brand_missing_logo_fails (fs : String → Option Img) (ms : Img → Img → ℚ)
    (dc : Img → List String) (cfg : BrandConfig) (image : Img) (p : String)
    (hp : cfg.logo_template_path = some p) (hne : p.isEmpty = false)
    (hfs : fs p = none) :
    detect_logo fs ms cfg image = false ∧
    "Brand logo not detected in image" ∈
      (check_brand_compliance fs ms dc cfg image).violations ∧
    (check_brand_compliance fs ms dc cfg image).passed = false := by
  have hset : cfg.pathSet = true := by
    simp [BrandConfig.pathSet, hp, hne]
  have hload : load_logo_template fs cfg = none := by
    simp [load_logo_template, hp, hne, hfs]
  have hdet : detect_logo fs ms cfg image = false := by
    simp [detect_logo, hset, hload]
  refine ⟨hdet, ?_, ?_⟩ <;> unfold check_brand_compliance <;> simp [hset, hdet]

/-- Witness for C1 (amended) at a concrete input. -/
theorem brand_missing_logo_fails_witness :
    ((⟨some "logo.png", ["#FF0000"], 7 / 10⟩ : BrandConfig).logo_template_path =
        some "logo.png" ∧
      "logo.png".isEmpty = false ∧
      (fun (_ : String) => (none : Option Img)) "logo.png" = none) ∧
    (detect_logo (fun _ => none) (fun _ _ => 0)
        ⟨some "logo.png", ["#FF0000"], 7 / 10⟩ (newRGBA 1 1) = false ∧
      "Brand logo not detected in image" ∈
        (check_brand_compliance (fun _ => none) (fun _ _ => 0) (fun _ => ["#AABBCC"])
          ⟨some "logo.png", ["#FF0000"], 7 / 10⟩ (newRGBA 1 1)).violations ∧
      (check_brand_compliance (fun _ => none) (fun _ _ => 0) (fun _ => ["#AABBCC"])
        ⟨some "logo.png", ["#FF0000"], 7 / 10⟩ (newRGBA 1 1)).passed = false) :=
  ⟨⟨rfl, rfl, rfl⟩,
   brand_missing_logo_fails (fun _ => none) (fun _ _ => 0) (fun _ => ["#AABBCC"])
     ⟨some "logo.png", ["#FF0000"], 7 / 10⟩ (newRGBA 1 1) "logo.png" rfl rfl rfl⟩

/-- C7: both overlay operations return an image of exactly the input's
dimensions, and the input object held by the caller is bit-for-bit
unchanged in the store after the call (assuming only that the external
glyph rasteriser draws in place, preserving the target's dimensions). -/
theorem overlay_preserves_dims_and_input (o : FontOracle) (cfg : CompositorConfig)
    (store : List Img) (ref : ℕ) (text : String) (position : Option String)
    (href : ref < store.length)
    (hdraw : ∀ n i xy s, (o.drawText n i xy s).width = i.width ∧
      (o.drawText n i xy s).height = i.height) :
    (((add_text_overlay o cfg store ref text position).1.getD
        (add_text_overlay o cfg store ref text position).2 dfltImg).width =
      (store.getD ref dfltImg).width ∧
     ((add_text_overlay o cfg store ref text position).1.getD
        (add_text_overlay o cfg store ref text position).2 dfltImg).height =
      (store.getD ref dfltImg).height ∧
     (add_text_overlay o cfg store ref text position).1.getD ref dfltImg =
      store.getD ref dfltImg) ∧
    (((add_text_overlay_with_contrast o cfg store ref text position).1.getD
        (add_text_overlay_with_contrast o cfg store ref text position).2 dfltImg).width =
      (store.getD ref dfltImg).width ∧
     ((add_text_overlay_with_contrast o cfg store ref text position).1.getD
        (add_text_overlay_with_contrast o cfg store ref text position).2 dfltImg).height =
      (store.getD ref dfltImg).height ∧
     (add_text_overlay_with_contrast o cfg store ref text position).1.getD ref dfltImg =
      store.getD ref dfltImg) := by
  constructor
  · by_cases hmode : (store.getD ref dfltImg).mode = PMode.RGBA
    · simp only [add_text_overlay, hmode, if_pos]
      refine ⟨?_, ?_, ?_⟩
      · rw [push_set_getD_self, (hdraw _ _ _ _).1]
        rfl
      · rw [push_set_getD_self, (hdraw _ _ _ _).2]
        rfl
      · rw [push_set_getD_lt _ _ _ _ (by simp; omega),
          push_set_getD_lt _ _ _ _ (by simp; omega),
          getD_append_lt _ _ _ _ href]
    · simp only [add_text_overlay, hmode, if_neg, if_false, ite_false]
      refine ⟨?_, ?_, ?_⟩
      · rw [push_set_getD_self, (hdraw _ _ _ _).1]
        simp [alphaComposite, Img.convertRGBA]
      · rw [push_set_getD_self, (hdraw _ _ _ _).2]
        simp [alphaComposite, Img.convertRGBA]
      · rw [push_set_getD_lt _ _ _ _ (by simp; omega),
          getD_append_lt _ _ _ _ (by simp; omega),
          push_set_getD_lt _ _ _ _ (by simp; omega),
          getD_append_lt _ _ _ _ href]
  · by_cases hmode : (store.getD ref dfltImg).mode = PMode.RGBA
    · simp only [add_text_overlay_with_contrast, hmode, if_pos]
      refine ⟨?_, ?_, ?_⟩
      · rw [push_set_getD_self, (hdraw _ _ _ _).1]
        rfl
      · rw [push_set_getD_self, (hdraw _ _ _ _).2]
        rfl
      · rw [push_set_getD_lt _ _ _ _ (by simp; omega),
          push_set_getD_lt _ _ _ _ (by simp; omega),
          getD_append_lt _ _ _ _ href]
    · simp only [add_text_overlay_with_contrast, hmode, if_neg, if_false, ite_false]
      refine ⟨?_, ?_, ?_⟩
      · rw [push_set_getD_self, (hdraw _ _ _ _).1]
        simp [alphaComposite, Img.convertRGBA]
      · rw [push_set_getD_self, (hdraw _ _ _ _).2]
        simp [alphaComposite, Img.convertRGBA]
      · rw [push_set_getD_lt _ _ _ _ (by simp; omega),
          getD_append_lt _ _ _ _ (by simp; omega),
          push_set_getD_lt _ _ _ _ (by simp; omega),
          getD_append_lt _ _ _ _ href]

/-- Witness for C7 at a concrete store, image, configuration and oracle. -/
theorem overlay_preserves_dims_and_input_witness :
    0 < witnessStore.length ∧
    ((((add_text_overlay witnessOracle witnessCfg witnessStore 0 "hi" none).1.getD
        (add_text_overlay witnessOracle witnessCfg witnessStore 0 "hi" none).2 dfltImg).width =
      (witnessStore.getD 0 dfltImg).width ∧
     ((add_text_overlay witnessOracle witnessCfg witnessStore 0 "hi" none).1.getD
        (add_text_overlay witnessOracle witnessCfg witnessStore 0 "hi" none).2 dfltImg).height =
      (witnessStore.getD 0 dfltImg).height ∧
     (add_text_overlay witnessOracle witnessCfg witnessStore 0 "hi" none).1.getD 0 dfltImg =
      witnessStore.getD 0 dfltImg) ∧
    (((add_text_overlay_with_contrast witnessOracle witnessCfg witnessStore 0 "hi" none).1.getD
        (add_text_overlay_with_contrast witnessOracle witnessCfg witnessStore 0 "hi" none).2
        dfltImg).width =
      (witnessStore.getD 0 dfltImg).width ∧
     ((add_text_overlay_with_contrast witnessOracle witnessCfg witnessStore 0 "hi" none).1.getD
        (add_text_overlay_with_contrast witnessOracle witnessCfg witnessStore 0 "hi" none).2
        dfltImg).height =
      (witnessStore.getD 0 dfltImg).height ∧
     (add_text_overlay_with_contrast witnessOracle witnessCfg witnessStore 0 "hi" none).1.getD 0
        dfltImg =
      witnessStore.getD 0 dfltImg)) :=
  ⟨by decide,
   overlay_preserves_dims_and_input witnessOracle witnessCfg witnessStore 0 "hi" none
     (by decide) (fun _ _ _ _ => ⟨rfl, rfl⟩)⟩

end Pipeline
